import Mathlib

/-
Verification of the hotplug event-notification core (src/libusb/hotplug.c).

The development shallowly embeds the four operations of the file:

  * usbi_hotplug_match_cb          -- the Matcher
  * usbi_hotplug_match             -- the Dispatcher (one dispatch pass)
  * libusb_hotplug_register_callback
  * libusb_hotplug_deregister_callback / usbi_hotplug_deregister_all

C machine integers are modelled as Int/Nat (the three filter fields are C
ints compared against the sentinel LIBUSB_HOTPLUG_MATCH_ANY = -1; the event
mask is a small bit set).  User callbacks are modelled as pure functions;
every callback invocation the code performs is additionally recorded in an
explicit invocation log (ghost instrumentation), and every mutex lock or
unlock call the code performs is recorded in an explicit trace, so that
claims about callback delivery and about which mutexes are held while user
code runs become statements about those logs.
-/

/-- The two hotplug events.  In the C headers these are the bit values
ARRIVED = 0x01 and LEFT = 0x02 of the libusb_hotplug_event enum. -/
inductive libusb_hotplug_event where
  | DEVICE_ARRIVED
  | DEVICE_LEFT
deriving DecidableEq, Repr

/-- Bit value of an event inside an event mask (ARRIVED = 0x01, LEFT = 0x02). -/
def eventBit : libusb_hotplug_event → Nat
  | libusb_hotplug_event.DEVICE_ARRIVED => 1
  | libusb_hotplug_event.DEVICE_LEFT => 2

/-- The wildcard filter sentinel.  In the C header LIBUSB_HOTPLUG_MATCH_ANY
is -1. -/
def LIBUSB_HOTPLUG_MATCH_ANY : Int := -1

/-- The enumerate-on-register flag bit (LIBUSB_HOTPLUG_ENUMERATE = 1). -/
def LIBUSB_HOTPLUG_ENUMERATE : Nat := 1

/-- Error taxonomy of the register operation, from the libusb error enum
(SUCCESS = 0, INVALID_PARAM = -2, NO_MEM = -11, NOT_SUPPORTED = -12). -/
inductive libusb_error where
  | SUCCESS
  | ERROR_INVALID_PARAM
  | ERROR_NO_MEM
  | ERROR_NOT_SUPPORTED
deriving DecidableEq, Repr

/-- A device, read-only from the hotplug core's point of view: its owning
context (modelled by a numeric context id) and the descriptor fields the
Matcher reads.  The 16/8-bit descriptor fields are embedded into Int, the
type they are compared at in C after integer promotion. -/
structure libusb_device where
  ctx : Nat
  idVendor : Int
  idProduct : Int
  bDeviceClass : Int
deriving DecidableEq, Repr

/-- The process default context.  usbi_default_context is a global of the
core library; only its identity matters here, so it is modelled as the
fixed context id 0. -/
def usbi_default_context : Nat := 0

/-- A user callback: (context or null, device, event, user data) -> detach?
The C callback returns an int that the core only tests for zero, so it is
modelled as Bool. -/
def CbFn : Type :=
  Option Nat → libusb_device → libusb_hotplug_event → Nat → Bool

/-- A registered hotplug callback entry (struct libusb_hotplug_callback):
owning context, the three filter fields, flags, event mask, the callback and
its user data, the lazy-deregistration marker needs_free, and the handle. -/
structure libusb_hotplug_callback where
  ctx : Nat
  vendor_id : Int
  product_id : Int
  dev_class : Int
  flags : Nat
  events : Nat
  cb : CbFn
  user_data : Nat
  needs_free : Bool
  handle : Nat

/-- Ghost record of one callback invocation: which entry's callback ran
(by its handle) and the four arguments it received. -/
structure Invocation where
  entryHandle : Nat
  ctx_arg : Option Nat
  dev : libusb_device
  event : libusb_hotplug_event
  user_data : Nat
deriving DecidableEq, Repr

/-- The three mutexes the file touches: the registry lock hotplug_cbs_lock,
the device-list lock usb_devs_lock and the open-handle lock open_devs_lock. -/
inductive MutexId where
  | hotplug_cbs_lock
  | usb_devs_lock
  | open_devs_lock
deriving DecidableEq, Repr

/-- One step of the ghost execution trace: a usbi_mutex_lock call, a
usbi_mutex_unlock call, or a user-callback invocation. -/
inductive TraceEv where
  | lock (m : MutexId)
  | unlock (m : MutexId)
  | invoke (i : Invocation)
deriving DecidableEq, Repr

/-- An open device handle; the hotplug core reads its bound device and, via
the disconnect propagator, sets its disconnected flag. -/
structure libusb_device_handle where
  dev : libusb_device
  disconnected : Bool
deriving DecidableEq, Repr

/-- A library context: its identity, the hotplug callback registry
(hotplug_cbs, in visit order), the open handles (open_devs) and the
currently known devices (usb_devs). -/
structure libusb_context where
  ctxId : Nat
  hotplug_cbs : List libusb_hotplug_callback
  open_devs : List libusb_device_handle
  usb_devs : List libusb_device

/-- The Matcher, usbi_hotplug_match_cb.  Returns the C function's int
result as a Bool together with the list of callback invocations it
performed (empty or a single one).  The decision cascade is a direct
transliteration of the source: needs_free first, then the event mask, then
the vendor, product and class filters, then the callback call with the
default context replaced by null. -/
def usbi_hotplug_match_cb (dev : libusb_device) (event : libusb_hotplug_event)
    (hotplug_cb : libusb_hotplug_callback) : Bool × List Invocation :=
  let ctx := dev.ctx
  if hotplug_cb.needs_free then
    (true, [])
  else if hotplug_cb.events &&& eventBit event == 0 then
    (false, [])
  else if LIBUSB_HOTPLUG_MATCH_ANY ≠ hotplug_cb.vendor_id ∧
      hotplug_cb.vendor_id ≠ dev.idVendor then
    (false, [])
  else if LIBUSB_HOTPLUG_MATCH_ANY ≠ hotplug_cb.product_id ∧
      hotplug_cb.product_id ≠ dev.idProduct then
    (false, [])
  else if LIBUSB_HOTPLUG_MATCH_ANY ≠ hotplug_cb.dev_class ∧
      hotplug_cb.dev_class ≠ dev.bDeviceClass then
    (false, [])
  else
    let ctx_arg : Option Nat := if ctx = usbi_default_context then none else some ctx
    let r := hotplug_cb.cb ctx_arg dev event hotplug_cb.user_data
    (r, [⟨hotplug_cb.handle, ctx_arg, dev, event, hotplug_cb.user_data⟩])

/-- Modelled from the spec: usbi_handle_disconnect is declared outside the
sources given here; the spec's Disconnect Propagator marks a handle
disconnected, so it is modelled as setting the liveness flag. -/
def usbi_handle_disconnect (handle : libusb_device_handle) : libusb_device_handle :=
  { handle with disconnected := true }

/-- Modelled from the spec: the intrusive list primitive list_add lives in
libusbi.h, which is not among the sources given here.  The spec states that
a dispatch pass visits entries in registration order, so insertion is
modelled as appending the new entry at the tail of the visit order. -/
def list_add (e : libusb_hotplug_callback) (l : List libusb_hotplug_callback) :
    List libusb_hotplug_callback :=
  l ++ [e]

/-- The registry sweep of one dispatch pass (the list_for_each_entry_safe
loop of usbi_hotplug_match): for each entry, unlock the registry, run the
Matcher, relock, and unlink the entry when the Matcher returned nonzero.
Returns the surviving entries, the invocation log and the trace fragment. -/
def hotplugPass (dev : libusb_device) (event : libusb_hotplug_event) :
    List libusb_hotplug_callback →
    List libusb_hotplug_callback × List Invocation × List TraceEv
  | [] => ([], [], [])
  | hotplug_cb :: rest =>
    let step := usbi_hotplug_match_cb dev event hotplug_cb
    let tailr := hotplugPass dev event rest
    let tr := TraceEv.unlock MutexId.hotplug_cbs_lock ::
      (step.2.map TraceEv.invoke ++ TraceEv.lock MutexId.hotplug_cbs_lock :: tailr.2.2)
    if step.1 then (tailr.1, step.2 ++ tailr.2.1, tr)
    else (hotplug_cb :: tailr.1, step.2 ++ tailr.2.1, tr)

/-- The Dispatcher, usbi_hotplug_match: sweep the registry under the
registry lock (dropping it around each Matcher call), then, for a LEFT
event only, walk the open handles under the open-handle lock and disconnect
every handle bound to the departed device. -/
def usbi_hotplug_match (ctx : libusb_context) (dev : libusb_device)
    (event : libusb_hotplug_event) :
    libusb_context × List Invocation × List TraceEv :=
  let pass := hotplugPass dev event ctx.hotplug_cbs
  let regTrace := TraceEv.lock MutexId.hotplug_cbs_lock ::
    (pass.2.2 ++ [TraceEv.unlock MutexId.hotplug_cbs_lock])
  if event = libusb_hotplug_event.DEVICE_LEFT then
    ({ ctx with
        hotplug_cbs := pass.1,
        open_devs := ctx.open_devs.map (fun handle =>
          if dev = handle.dev then usbi_handle_disconnect handle else handle) },
      pass.2.1,
      regTrace ++ [TraceEv.lock MutexId.open_devs_lock,
                   TraceEv.unlock MutexId.open_devs_lock])
  else
    ({ ctx with hotplug_cbs := pass.1 }, pass.2.1, regTrace)

/-- The C test (~0xffff & v) on a two's complement int: nonzero exactly
when some bit outside the low 16 is set, i.e. when v is negative or exceeds
0xffff. -/
def maskedBits16 (v : Int) : Prop :=
  v < 0 ∨ (0xffff : Int) < v

instance (v : Int) : Decidable (maskedBits16 v) := by
  unfold maskedBits16; infer_instance

/-- The C test (~0xff & v) on a two's complement int: nonzero exactly when
some bit outside the low 8 is set. -/
def maskedBits8 (v : Int) : Prop :=
  v < 0 ∨ (0xff : Int) < v

instance (v : Int) : Decidable (maskedBits8 v) := by
  unfold maskedBits8; infer_instance

/-- The outputs of libusb_hotplug_register_callback: the returned error
code, the updated context, the updated process-wide handle counter, the
value written through the optional output pointer, and the ghost invocation
log and trace. -/
structure RegisterResult where
  ret : libusb_error
  ctx : libusb_context
  next_handle_id : Nat
  written : Option Nat
  invs : List Invocation
  trace : List TraceEv

/-- The enumerate-on-register loop body of register: for every currently
known device, run the Matcher against the new entry with event ARRIVED.
The C code casts the Matcher's return to (void), so the result is
discarded; only the invocation log and trace fragment are produced. -/
def enumeratePass (new_callback : libusb_hotplug_callback) :
    List libusb_device → List Invocation × List TraceEv
  | [] => ([], [])
  | dev :: rest =>
    let step := usbi_hotplug_match_cb dev libusb_hotplug_event.DEVICE_ARRIVED new_callback
    let tailr := enumeratePass new_callback rest
    (step.2 ++ tailr.1, step.2.map TraceEv.invoke ++ tailr.2)

/-- libusb_hotplug_register_callback.  The collaborator capability check
libusb_has_capability(LIBUSB_CAP_HAS_HOTPLUG) and the success of calloc are
environment conditions, passed in as the booleans has_hotplug and alloc_ok.
handle_id is the static process-wide counter; handle_present models whether
the output pointer argument is non-null. -/
def libusb_hotplug_register_callback
    (has_hotplug alloc_ok : Bool)
    (ctx : libusb_context) (handle_id : Nat)
    (events flags : Nat)
    (vendor_id product_id dev_class : Int)
    (cb_fn : Option CbFn) (user_data : Nat)
    (handle_present : Bool) : RegisterResult :=
  if !has_hotplug then
    ⟨libusb_error.ERROR_NOT_SUPPORTED, ctx, handle_id, none, [], []⟩
  else if (LIBUSB_HOTPLUG_MATCH_ANY ≠ vendor_id ∧ maskedBits16 vendor_id) ∨
      (LIBUSB_HOTPLUG_MATCH_ANY ≠ product_id ∧ maskedBits16 product_id) ∨
      (LIBUSB_HOTPLUG_MATCH_ANY ≠ dev_class ∧ maskedBits8 dev_class) ∨
      cb_fn.isNone = true then
    ⟨libusb_error.ERROR_INVALID_PARAM, ctx, handle_id, none, [], []⟩
  else if !alloc_ok then
    ⟨libusb_error.ERROR_NO_MEM, ctx, handle_id, none, [], []⟩
  else
    let new_callback : libusb_hotplug_callback :=
      { ctx := ctx.ctxId, vendor_id := vendor_id, product_id := product_id,
        dev_class := dev_class, flags := flags, events := events,
        cb := cb_fn.getD (fun _ _ _ _ => false), user_data := user_data,
        needs_free := false, handle := handle_id }
    let enu := if flags &&& LIBUSB_HOTPLUG_ENUMERATE ≠ 0
      then enumeratePass new_callback ctx.usb_devs else ([], [])
    let enuTrace := if flags &&& LIBUSB_HOTPLUG_ENUMERATE ≠ 0
      then TraceEv.lock MutexId.usb_devs_lock ::
        (enu.2 ++ [TraceEv.unlock MutexId.usb_devs_lock])
      else []
    ⟨libusb_error.SUCCESS,
      { ctx with hotplug_cbs := list_add new_callback ctx.hotplug_cbs },
      handle_id + 1,
      if handle_present then some handle_id else none,
      enu.1,
      TraceEv.lock MutexId.hotplug_cbs_lock ::
        (enuTrace ++ [TraceEv.unlock MutexId.hotplug_cbs_lock])⟩

/-- libusb_hotplug_deregister_callback: a silent no-op without hotplug
capability, otherwise every entry whose handle equals the argument gets its
needs_free marker set under the registry lock; nothing is unlinked or freed
and no callback is invoked (the empty invocation log records that the
operation contains no callback call). -/
def libusb_hotplug_deregister_callback (has_hotplug : Bool)
    (ctx : libusb_context) (handle : Nat) : libusb_context × List Invocation :=
  if !has_hotplug then
    (ctx, [])
  else
    ({ ctx with hotplug_cbs := ctx.hotplug_cbs.map (fun hotplug_cb =>
        if handle = hotplug_cb.handle then { hotplug_cb with needs_free := true }
        else hotplug_cb) }, [])

/-- usbi_hotplug_deregister_all: unconditionally unlink and free every
entry (context teardown). -/
def usbi_hotplug_deregister_all (ctx : libusb_context) : libusb_context :=
  { ctx with hotplug_cbs := [] }

/-- Held-mutex set at each callback invocation of a trace: walk the trace
maintaining the list of currently held mutexes and record it at every
invoke event. -/
def invokeHolds (held : List MutexId) : List TraceEv → List (List MutexId)
  | [] => []
  | TraceEv.lock m :: rest => invokeHolds (m :: held) rest
  | TraceEv.unlock m :: rest => invokeHolds (held.erase m) rest
  | TraceEv.invoke _ :: rest => held :: invokeHolds held rest

/-- The Matcher's three possible outcomes, as the spec names them. -/
inductive MatchOutcome where
  | REMOVE
  | NO_MATCH
  | MATCHED_KEEP
deriving DecidableEq, Repr

/-- Lowering of an outcome to the C function's int return: REMOVE is the
nonzero return, NO_MATCH and MATCHED_KEEP both return zero (they are
distinguished by whether the callback was invoked). -/
def outcomeRemoves : MatchOutcome → Bool
  | MatchOutcome.REMOVE => true
  | MatchOutcome.NO_MATCH => false
  | MatchOutcome.MATCHED_KEEP => false

/-- The Matcher decision procedure exactly as claim C1 words it: a
PENDING_REMOVAL entry gives REMOVE with no invocation; an event outside the
entry's mask gives NO_MATCH; a non-ANY vendor, product or class field that
differs from the device's field gives NO_MATCH; otherwise the callback is
invoked with (null when the owning context is the default context, else the
real context; device; event; user data), and its return maps true to REMOVE
and false to MATCHED_KEEP. -/
def hotplugMatcherSpec (dev : libusb_device) (event : libusb_hotplug_event)
    (hotplug_cb : libusb_hotplug_callback) : MatchOutcome × List Invocation :=
  if hotplug_cb.needs_free then
    (MatchOutcome.REMOVE, [])
  else if hotplug_cb.events &&& eventBit event == 0 then
    (MatchOutcome.NO_MATCH, [])
  else if (LIBUSB_HOTPLUG_MATCH_ANY ≠ hotplug_cb.vendor_id ∧
        hotplug_cb.vendor_id ≠ dev.idVendor) ∨
      (LIBUSB_HOTPLUG_MATCH_ANY ≠ hotplug_cb.product_id ∧
        hotplug_cb.product_id ≠ dev.idProduct) ∨
      (LIBUSB_HOTPLUG_MATCH_ANY ≠ hotplug_cb.dev_class ∧
        hotplug_cb.dev_class ≠ dev.bDeviceClass) then
    (MatchOutcome.NO_MATCH, [])
  else
    let ctx_arg : Option Nat :=
      if dev.ctx = usbi_default_context then none else some dev.ctx
    if hotplug_cb.cb ctx_arg dev event hotplug_cb.user_data then
      (MatchOutcome.REMOVE, [⟨hotplug_cb.handle, ctx_arg, dev, event, hotplug_cb.user_data⟩])
    else
      (MatchOutcome.MATCHED_KEEP, [⟨hotplug_cb.handle, ctx_arg, dev, event, hotplug_cb.user_data⟩])

/-- Claim C1: for every entry, device and event, usbi_hotplug_match_cb
decides exactly as the spec's Matcher does, in the spec's order: a
PENDING_REMOVAL entry yields REMOVE without invoking the callback; an event
not in the entry's mask yields NO_MATCH; a non-ANY vendor/product/class
filter field differing from the device's field yields NO_MATCH; otherwise
the callback is invoked with (null for the default context, else the real
context; device; event; user data) and a true return maps to REMOVE, a
false return to MATCHED_KEEP. -/
theorem matcher_follows_spec (dev : libusb_device) (event : libusb_hotplug_event)
    (hotplug_cb : libusb_hotplug_callback) :
    usbi_hotplug_match_cb dev event hotplug_cb =
      (outcomeRemoves (hotplugMatcherSpec dev event hotplug_cb).1,
       (hotplugMatcherSpec dev event hotplug_cb).2) := by
  simp only [usbi_hotplug_match_cb, hotplugMatcherSpec]
  split_ifs <;> simp_all [outcomeRemoves] <;> tauto

/-- Invocation and trace components of one sweep step do not depend on
whether the entry is unlinked. -/
theorem hotplugPass_snd (dev : libusb_device) (event : libusb_hotplug_event)
    (hotplug_cb : libusb_hotplug_callback) (rest : List libusb_hotplug_callback) :
    (hotplugPass dev event (hotplug_cb :: rest)).2 =
      ((usbi_hotplug_match_cb dev event hotplug_cb).2 ++ (hotplugPass dev event rest).2.1,
       TraceEv.unlock MutexId.hotplug_cbs_lock ::
         ((usbi_hotplug_match_cb dev event hotplug_cb).2.map TraceEv.invoke ++
          TraceEv.lock MutexId.hotplug_cbs_lock :: (hotplugPass dev event rest).2.2)) := by
  simp only [hotplugPass]
  split <;> rfl

/-- Surviving entries of one sweep step: the entry is kept exactly when the
Matcher returned zero. -/
theorem hotplugPass_fst (dev : libusb_device) (event : libusb_hotplug_event)
    (hotplug_cb : libusb_hotplug_callback) (rest : List libusb_hotplug_callback) :
    (hotplugPass dev event (hotplug_cb :: rest)).1 =
      if (usbi_hotplug_match_cb dev event hotplug_cb).1 then (hotplugPass dev event rest).1
      else hotplug_cb :: (hotplugPass dev event rest).1 := by
  simp only [hotplugPass]
  split <;> simp_all

/-- Every invocation the Matcher performs belongs to an entry that is not
pending removal and carries that entry's handle. -/
theorem match_cb_inv_shape (dev : libusb_device) (event : libusb_hotplug_event)
    (hotplug_cb : libusb_hotplug_callback) :
    ∀ inv ∈ (usbi_hotplug_match_cb dev event hotplug_cb).2,
      hotplug_cb.needs_free = false ∧ inv.entryHandle = hotplug_cb.handle := by
  unfold usbi_hotplug_match_cb
  split_ifs <;> simp_all

/-- A zero Matcher return implies the entry was not pending removal. -/
theorem match_cb_false_not_pending (dev : libusb_device) (event : libusb_hotplug_event)
    (hotplug_cb : libusb_hotplug_callback)
    (h : (usbi_hotplug_match_cb dev event hotplug_cb).1 = false) :
    hotplug_cb.needs_free = false := by
  revert h
  unfold usbi_hotplug_match_cb
  split_ifs <;> simp_all

/-- Every invocation of a full sweep belongs to some entry of the list that
is not pending removal. -/
theorem hotplugPass_inv_shape (dev : libusb_device) (event : libusb_hotplug_event)
    (cbs : List libusb_hotplug_callback) :
    ∀ inv ∈ (hotplugPass dev event cbs).2.1,
      ∃ cb ∈ cbs, cb.needs_free = false ∧ inv.entryHandle = cb.handle := by
  induction cbs with
  | nil => simp [hotplugPass]
  | cons hotplug_cb rest ih =>
    intro inv hinv
    rw [hotplugPass_snd] at hinv
    rcases List.mem_append.mp hinv with h | h
    · exact ⟨hotplug_cb, List.mem_cons_self _ _,
        (match_cb_inv_shape dev event hotplug_cb inv h).1,
        (match_cb_inv_shape dev event hotplug_cb inv h).2⟩
    · obtain ⟨cb, hcb, hnf, hh⟩ := ih inv h
      exact ⟨cb, List.mem_cons_of_mem _ hcb, hnf, hh⟩

/-- Every entry surviving a full sweep was in the list and is not pending
removal. -/
theorem hotplugPass_survivors (dev : libusb_device) (event : libusb_hotplug_event)
    (cbs : List libusb_hotplug_callback) :
    ∀ cb ∈ (hotplugPass dev event cbs).1, cb ∈ cbs ∧ cb.needs_free = false := by
  induction cbs with
  | nil => simp [hotplugPass]
  | cons hotplug_cb rest ih =>
    intro cb hcb
    rw [hotplugPass_fst] at hcb
    by_cases hret : (usbi_hotplug_match_cb dev event hotplug_cb).1
    · rw [if_pos hret] at hcb
      exact ⟨List.mem_cons_of_mem _ (ih cb hcb).1, (ih cb hcb).2⟩
    · rw [if_neg hret] at hcb
      rcases List.mem_cons.mp hcb with rfl | h
      · exact ⟨List.mem_cons_self _ _,
          match_cb_false_not_pending dev event cb (Bool.not_eq_true _ ▸ eq_false_of_ne_true hret)⟩
      · exact ⟨List.mem_cons_of_mem _ (ih cb h).1, (ih cb h).2⟩

/-- The registry component of the Dispatcher's result is the sweep's
surviving list, for either event. -/
theorem dispatch_cbs (ctx : libusb_context) (dev : libusb_device)
    (event : libusb_hotplug_event) :
    (usbi_hotplug_match ctx dev event).1.hotplug_cbs =
      (hotplugPass dev event ctx.hotplug_cbs).1 := by
  unfold usbi_hotplug_match
  split <;> rfl

/-- The invocation log of the Dispatcher is the sweep's log, for either
event. -/
theorem dispatch_invs (ctx : libusb_context) (dev : libusb_device)
    (event : libusb_hotplug_event) :
    (usbi_hotplug_match ctx dev event).2.1 =
      (hotplugPass dev event ctx.hotplug_cbs).2.1 := by
  unfold usbi_hotplug_match
  split <;> rfl

/-- The trace of the enumerate-on-register loop is exactly its invocation
log (no lock operation occurs inside the loop). -/
theorem enumeratePass_trace (new_callback : libusb_hotplug_callback)
    (devs : List libusb_device) :
    (enumeratePass new_callback devs).2 =
      (enumeratePass new_callback devs).1.map TraceEv.invoke := by
  induction devs with
  | nil => simp [enumeratePass]
  | cons dev rest ih => simp [enumeratePass, ih]

/-- Every invocation of the enumerate-on-register loop carries the new
entry's handle. -/
theorem enumeratePass_inv_shape (new_callback : libusb_hotplug_callback)
    (devs : List libusb_device) :
    ∀ inv ∈ (enumeratePass new_callback devs).1,
      inv.entryHandle = new_callback.handle := by
  induction devs with
  | nil => simp [enumeratePass]
  | cons dev rest ih =>
    intro inv hinv
    simp only [enumeratePass, List.mem_append] at hinv
    rcases hinv with h | h
    · exact (match_cb_inv_shape dev libusb_hotplug_event.DEVICE_ARRIVED new_callback inv h).2
    · exact ih inv h

/-- Shape of a register call: on success the registry gains exactly one
entry at the tail of the visit order, carrying the current counter value as
handle and marked active; the counter advances by one; every enumeration
invocation carries the new handle; the rest of the context is untouched.
On failure nothing changes and no callback runs. -/
theorem register_shape (has_hotplug alloc_ok : Bool)
    (ctx : libusb_context) (handle_id : Nat) (events flags : Nat)
    (vendor_id product_id dev_class : Int) (cb_fn : Option CbFn)
    (user_data : Nat) (handle_present : Bool) :
    ((libusb_hotplug_register_callback has_hotplug alloc_ok ctx handle_id events flags
        vendor_id product_id dev_class cb_fn user_data handle_present).ret =
        libusb_error.SUCCESS →
      ∃ new_callback : libusb_hotplug_callback,
        new_callback.handle = handle_id ∧
        new_callback.needs_free = false ∧
        (libusb_hotplug_register_callback has_hotplug alloc_ok ctx handle_id events flags
          vendor_id product_id dev_class cb_fn user_data handle_present).ctx.hotplug_cbs =
          ctx.hotplug_cbs ++ [new_callback] ∧
        (libusb_hotplug_register_callback has_hotplug alloc_ok ctx handle_id events flags
          vendor_id product_id dev_class cb_fn user_data handle_present).next_handle_id =
          handle_id + 1 ∧
        (∀ inv ∈ (libusb_hotplug_register_callback has_hotplug alloc_ok ctx handle_id events
            flags vendor_id product_id dev_class cb_fn user_data handle_present).invs,
          inv.entryHandle = handle_id) ∧
        (libusb_hotplug_register_callback has_hotplug alloc_ok ctx handle_id events flags
          vendor_id product_id dev_class cb_fn user_data handle_present).ctx.open_devs =
          ctx.open_devs ∧
        (libusb_hotplug_register_callback has_hotplug alloc_ok ctx handle_id events flags
          vendor_id product_id dev_class cb_fn user_data handle_present).ctx.usb_devs =
          ctx.usb_devs ∧
        (libusb_hotplug_register_callback has_hotplug alloc_ok ctx handle_id events flags
          vendor_id product_id dev_class cb_fn user_data handle_present).written =
          (if handle_present then some handle_id else none)) ∧
    ((libusb_hotplug_register_callback has_hotplug alloc_ok ctx handle_id events flags
        vendor_id product_id dev_class cb_fn user_data handle_present).ret ≠
        libusb_error.SUCCESS →
      (libusb_hotplug_register_callback has_hotplug alloc_ok ctx handle_id events flags
        vendor_id product_id dev_class cb_fn user_data handle_present).ctx = ctx ∧
      (libusb_hotplug_register_callback has_hotplug alloc_ok ctx handle_id events flags
        vendor_id product_id dev_class cb_fn user_data handle_present).next_handle_id =
        handle_id ∧
      (libusb_hotplug_register_callback has_hotplug alloc_ok ctx handle_id events flags
        vendor_id product_id dev_class cb_fn user_data handle_present).invs = [] ∧
      (libusb_hotplug_register_callback has_hotplug alloc_ok ctx handle_id events flags
        vendor_id product_id dev_class cb_fn user_data handle_present).written = none) := by
  unfold libusb_hotplug_register_callback
  split_ifs with h1 h2 h3 <;> simp_all [list_add]
  all_goals
    exact ⟨_, rfl, rfl, rfl, fun inv hinv => enumeratePass_inv_shape _ _ inv hinv⟩

/-- Unfolding equations for invokeHolds. -/
theorem invokeHolds_nil (held : List MutexId) : invokeHolds held [] = [] := rfl

/-- A lock event pushes the mutex onto the held set. -/
theorem invokeHolds_lock (held : List MutexId) (m : MutexId) (rest : List TraceEv) :
    invokeHolds held (TraceEv.lock m :: rest) = invokeHolds (m :: held) rest := rfl

/-- An unlock event removes the mutex from the held set. -/
theorem invokeHolds_unlock (held : List MutexId) (m : MutexId) (rest : List TraceEv) :
    invokeHolds held (TraceEv.unlock m :: rest) = invokeHolds (held.erase m) rest := rfl

/-- An invoke event records the current held set. -/
theorem invokeHolds_invoke (held : List MutexId) (i : Invocation) (rest : List TraceEv) :
    invokeHolds held (TraceEv.invoke i :: rest) = held :: invokeHolds held rest := rfl

/-- A block of consecutive invoke events records the entry-point held set
once per invocation and changes nothing. -/
theorem invokeHolds_invokes (held : List MutexId) (invs : List Invocation)
    (r : List TraceEv) :
    invokeHolds held (invs.map TraceEv.invoke ++ r) =
      List.replicate invs.length held ++ invokeHolds held r := by
  induction invs with
  | nil => simp
  | cons i is ih => simp [invokeHolds_invoke, ih, List.replicate_succ]

/-- During the registry sweep every callback runs with the empty held set:
the sweep trace, continued by any suffix, records [] at each of its
invocations. -/
theorem invokeHolds_pass (dev : libusb_device) (event : libusb_hotplug_event)
    (cbs : List libusb_hotplug_callback) (suffix : List TraceEv) :
    invokeHolds [MutexId.hotplug_cbs_lock] ((hotplugPass dev event cbs).2.2 ++ suffix) =
      List.replicate (hotplugPass dev event cbs).2.1.length [] ++
        invokeHolds [MutexId.hotplug_cbs_lock] suffix := by
  induction cbs with
  | nil => simp [hotplugPass, invokeHolds_nil]
  | cons hotplug_cb rest ih =>
    rw [hotplugPass_snd]
    rw [List.cons_append, invokeHolds_unlock, List.erase_cons_head, List.append_assoc,
      invokeHolds_invokes, List.cons_append, invokeHolds_lock, ih,
      List.length_append, List.replicate_add, List.append_assoc]

/-- The held-set log of one dispatch pass: every callback invocation of the
Dispatcher happens with no mutex held. -/
theorem dispatch_invokeHolds (ctx : libusb_context) (dev : libusb_device)
    (event : libusb_hotplug_event) :
    invokeHolds [] (usbi_hotplug_match ctx dev event).2.2 =
      List.replicate (hotplugPass dev event ctx.hotplug_cbs).2.1.length [] := by
  cases event with
  | DEVICE_ARRIVED =>
    show invokeHolds [] (TraceEv.lock MutexId.hotplug_cbs_lock ::
      ((hotplugPass dev libusb_hotplug_event.DEVICE_ARRIVED ctx.hotplug_cbs).2.2 ++
        [TraceEv.unlock MutexId.hotplug_cbs_lock])) = _
    rw [invokeHolds_lock, invokeHolds_pass]
    rw [show invokeHolds [MutexId.hotplug_cbs_lock]
      [TraceEv.unlock MutexId.hotplug_cbs_lock] = [] from rfl, List.append_nil]
  | DEVICE_LEFT =>
    show invokeHolds [] ((TraceEv.lock MutexId.hotplug_cbs_lock ::
      ((hotplugPass dev libusb_hotplug_event.DEVICE_LEFT ctx.hotplug_cbs).2.2 ++
        [TraceEv.unlock MutexId.hotplug_cbs_lock])) ++
      [TraceEv.lock MutexId.open_devs_lock, TraceEv.unlock MutexId.open_devs_lock]) = _
    rw [List.cons_append, invokeHolds_lock, List.append_assoc, invokeHolds_pass]
    rw [show invokeHolds [MutexId.hotplug_cbs_lock]
      ([TraceEv.unlock MutexId.hotplug_cbs_lock] ++
       [TraceEv.lock MutexId.open_devs_lock, TraceEv.unlock MutexId.open_devs_lock]) = []
      from rfl, List.append_nil]

/-- The held-set log of a register call: every callback invocation it
performs (they only occur in the enumerate-on-register loop) happens with
exactly the device-list lock and the registry lock held. -/
theorem register_invokeHolds (has_hotplug alloc_ok : Bool)
    (ctx : libusb_context) (handle_id events flags : Nat)
    (vendor_id product_id dev_class : Int) (cb_fn : Option CbFn)
    (user_data : Nat) (handle_present : Bool) :
    ∀ held ∈ invokeHolds []
        (libusb_hotplug_register_callback has_hotplug alloc_ok ctx handle_id events flags
          vendor_id product_id dev_class cb_fn user_data handle_present).trace,
      held = [MutexId.usb_devs_lock, MutexId.hotplug_cbs_lock] := by
  unfold libusb_hotplug_register_callback
  split_ifs <;> intro held hh <;>
    simp only [enumeratePass_trace, List.cons_append, List.append_assoc, invokeHolds_lock,
      invokeHolds_unlock, invokeHolds_invokes, List.singleton_append, List.erase_cons_head,
      invokeHolds_nil, List.append_nil, List.nil_append, List.not_mem_nil,
      invokeHolds_invoke] at hh
  all_goals exact List.eq_of_mem_replicate hh

/-- Concrete scenario for claim C4: a context holding one known device. -/
def dev4 : libusb_device :=
  { ctx := 1, idVendor := 2, idProduct := 3, bDeviceClass := 4 }

/-- Context for the C4 scenario: empty registry, one known device. -/
def ctx4 : libusb_context :=
  { ctxId := 1, hotplug_cbs := [], open_devs := [], usb_devs := [dev4] }

/-- Claim C4 counterexample: registration with the ENUMERATE flag on a
context with one known device invokes the user callback while the registry
mutex hotplug_cbs_lock is held (together with usb_devs_lock), refuting the
claim that neither the registry mutex nor the open-handle mutex is ever
held while user callback code runs, on every path that can invoke a
callback. -/
theorem enumeration_runs_callback_under_registry_lock :
    invokeHolds [] (libusb_hotplug_register_callback true true ctx4 1 3 1
        LIBUSB_HOTPLUG_MATCH_ANY LIBUSB_HOTPLUG_MATCH_ANY LIBUSB_HOTPLUG_MATCH_ANY
        (some (fun _ _ _ _ => false)) 0 true).trace =
      [[MutexId.usb_devs_lock, MutexId.hotplug_cbs_lock]] ∧
    MutexId.hotplug_cbs_lock ∈ [MutexId.usb_devs_lock, MutexId.hotplug_cbs_lock] := by
  constructor
  · decide
  · decide

/-- Claim C4 (amended): the dispatch pass never holds any mutex while
invoking a user callback, and no code path ever holds the open-handle mutex
open_devs_lock while invoking a callback; registration-time enumeration,
however, invokes the new entry's callback while holding the registry mutex
hotplug_cbs_lock and the device-list lock usb_devs_lock. -/
theorem callback_lock_discipline :
    (∀ (ctx : libusb_context) (dev : libusb_device) (event : libusb_hotplug_event),
      ∀ held ∈ invokeHolds [] (usbi_hotplug_match ctx dev event).2.2, held = []) ∧
    (∀ (has_hotplug alloc_ok : Bool) (ctx : libusb_context)
        (handle_id events flags : Nat) (vendor_id product_id dev_class : Int)
        (cb_fn : Option CbFn) (user_data : Nat) (handle_present : Bool),
      ∀ held ∈ invokeHolds []
          (libusb_hotplug_register_callback has_hotplug alloc_ok ctx handle_id events flags
            vendor_id product_id dev_class cb_fn user_data handle_present).trace,
        MutexId.open_devs_lock ∉ held ∧
          held = [MutexId.usb_devs_lock, MutexId.hotplug_cbs_lock]) := by
  constructor
  · intro ctx dev event held hh
    rw [dispatch_invokeHolds] at hh
    exact List.eq_of_mem_replicate hh
  · intro has_hotplug alloc_ok ctx handle_id events flags vendor_id product_id dev_class
      cb_fn user_data handle_present held hh
    have h := register_invokeHolds has_hotplug alloc_ok ctx handle_id events flags
      vendor_id product_id dev_class cb_fn user_data handle_present held hh
    subst h
    exact ⟨by decide, rfl⟩

/-- An active catch-all entry used to exercise the dispatch half of the C4
lock-discipline theorem on a concrete input. -/
def cbent4 : libusb_hotplug_callback :=
  { ctx := 1, vendor_id := LIBUSB_HOTPLUG_MATCH_ANY,
    product_id := LIBUSB_HOTPLUG_MATCH_ANY, dev_class := LIBUSB_HOTPLUG_MATCH_ANY,
    flags := 0, events := 3, cb := fun _ _ _ _ => false, user_data := 0,
    needs_free := false, handle := 1 }

/-- Context with one active entry for the C4 witness. -/
def ctx4w : libusb_context :=
  { ctxId := 1, hotplug_cbs := [cbent4], open_devs := [], usb_devs := [] }

/-- Witness for the amended C4 theorem: a dispatch on a context with one
matching active entry records the empty held set at its invocation, and the
concrete enumeration invocation of the counterexample scenario does not
hold the open-handle mutex. -/
theorem callback_lock_discipline_witness :
    (([] : List MutexId) ∈
        invokeHolds [] (usbi_hotplug_match ctx4w dev4 libusb_hotplug_event.DEVICE_ARRIVED).2.2 ∧
      ([] : List MutexId) = []) ∧
    ([MutexId.usb_devs_lock, MutexId.hotplug_cbs_lock] ∈
        invokeHolds [] (libusb_hotplug_register_callback true true ctx4 1 3 1
          LIBUSB_HOTPLUG_MATCH_ANY LIBUSB_HOTPLUG_MATCH_ANY LIBUSB_HOTPLUG_MATCH_ANY
          (some (fun _ _ _ _ => false)) 0 true).trace ∧
      MutexId.open_devs_lock ∉ [MutexId.usb_devs_lock, MutexId.hotplug_cbs_lock]) :=
  ⟨⟨by decide,
    callback_lock_discipline.1 ctx4w dev4 libusb_hotplug_event.DEVICE_ARRIVED [] (by decide)⟩,
   ⟨by decide,
    (callback_lock_discipline.2 true true ctx4 1 3 1
      LIBUSB_HOTPLUG_MATCH_ANY LIBUSB_HOTPLUG_MATCH_ANY LIBUSB_HOTPLUG_MATCH_ANY
      (some (fun _ _ _ _ => false)) 0 true
      [MutexId.usb_devs_lock, MutexId.hotplug_cbs_lock] (by decide)).1⟩⟩

/-- Device for the C3 scenario. -/
def dev3 : libusb_device :=
  { ctx := 1, idVendor := 2, idProduct := 3, bDeviceClass := 4 }

/-- Context for the C3 scenario: empty registry, one known device. -/
def ctx3 : libusb_context :=
  { ctxId := 1, hotplug_cbs := [], open_devs := [], usb_devs := [dev3] }

/-- The C3 register call: ENUMERATE flag set, catch-all filter, a callback
that always returns true (requests detach). -/
def reg3 : RegisterResult :=
  libusb_hotplug_register_callback true true ctx3 1 3 1
    LIBUSB_HOTPLUG_MATCH_ANY LIBUSB_HOTPLUG_MATCH_ANY LIBUSB_HOTPLUG_MATCH_ANY
    (some (fun _ _ _ _ => true)) 0 true

/-- Claim C3 (code-bug evidence): registering with the enumerate flag on a
context with one matching device does invoke the new callback once before
register returns, but the callback's true return ("detach me") is discarded
by the (void) cast at the enumeration call site, so the entry is left
active (needs_free = false) instead of being marked for removal, and the
next dispatch pass for the same device invokes the callback again. -/
theorem enumerate_detach_request_is_ignored :
    reg3.ret = libusb_error.SUCCESS ∧
    reg3.invs.length = 1 ∧
    reg3.ctx.hotplug_cbs.map (fun hotplug_cb => hotplug_cb.needs_free) = [false] ∧
    (usbi_hotplug_match reg3.ctx dev3 libusb_hotplug_event.DEVICE_ARRIVED).2.1.length = 1 := by
  exact ⟨by decide, by decide, by decide, by decide⟩

/-- Claim C2: once an entry (identified by its handle) is pending removal,
a dispatch pass never invokes it and removes it from the registry; a
deregister call invokes nothing and leaves it pending; a register call
(whose fresh counter value differs from the entry's handle) never invokes
it and leaves it pending; and context teardown empties the registry.  No
operation returns a pending entry to the active state. -/
theorem pending_removal_is_terminal
    (ctx : libusb_context) (dev : libusb_device) (event : libusb_hotplug_event)
    (hid : Nat) (dereg_has : Bool) (dereg_handle : Nat)
    (reg_has reg_alloc : Bool) (reg_id reg_events reg_flags : Nat)
    (reg_vendor reg_product reg_class : Int) (reg_cb : Option CbFn)
    (reg_ud : Nat) (reg_hp : Bool)
    (hpend : ∀ cb ∈ ctx.hotplug_cbs, cb.handle = hid → cb.needs_free = true)
    (hfresh : hid ≠ reg_id) :
    (∀ inv ∈ (usbi_hotplug_match ctx dev event).2.1, inv.entryHandle ≠ hid) ∧
    (∀ cb ∈ (usbi_hotplug_match ctx dev event).1.hotplug_cbs, cb.handle ≠ hid) ∧
    (libusb_hotplug_deregister_callback dereg_has ctx dereg_handle).2 = [] ∧
    (∀ cb ∈ (libusb_hotplug_deregister_callback dereg_has ctx dereg_handle).1.hotplug_cbs,
      cb.handle = hid → cb.needs_free = true) ∧
    (∀ inv ∈ (libusb_hotplug_register_callback reg_has reg_alloc ctx reg_id reg_events
        reg_flags reg_vendor reg_product reg_class reg_cb reg_ud reg_hp).invs,
      inv.entryHandle ≠ hid) ∧
    (∀ cb ∈ (libusb_hotplug_register_callback reg_has reg_alloc ctx reg_id reg_events
        reg_flags reg_vendor reg_product reg_class reg_cb reg_ud reg_hp).ctx.hotplug_cbs,
      cb.handle = hid → cb.needs_free = true) ∧
    (usbi_hotplug_deregister_all ctx).hotplug_cbs = [] := by
  refine ⟨?_, ?_, ?_, ?_, ?_, ?_, rfl⟩
  · intro inv hinv heq
    rw [dispatch_invs] at hinv
    obtain ⟨cb, hcb, hnf, hhdl⟩ := hotplugPass_inv_shape dev event ctx.hotplug_cbs inv hinv
    have hp := hpend cb hcb (hhdl.symm.trans heq)
    rw [hp] at hnf
    exact Bool.noConfusion hnf
  · intro cb hcb heq
    rw [dispatch_cbs] at hcb
    obtain ⟨hmem, hnf⟩ := hotplugPass_survivors dev event ctx.hotplug_cbs cb hcb
    have hp := hpend cb hmem heq
    rw [hp] at hnf
    exact Bool.noConfusion hnf
  · unfold libusb_hotplug_deregister_callback
    split <;> rfl
  · unfold libusb_hotplug_deregister_callback
    split
    · exact hpend
    · intro cb hcb
      rcases List.mem_map.mp hcb with ⟨a, ha, rfl⟩
      by_cases hda : dereg_handle = a.handle
      · rw [if_pos hda]
        intro _
        rfl
      · rw [if_neg hda]
        exact hpend a ha
  · intro inv hinv heq
    by_cases hr : (libusb_hotplug_register_callback reg_has reg_alloc ctx reg_id reg_events
        reg_flags reg_vendor reg_product reg_class reg_cb reg_ud reg_hp).ret =
        libusb_error.SUCCESS
    · obtain ⟨ncb, hhdl, hnf, hcbs, hnext, hinvs, _⟩ :=
        (register_shape reg_has reg_alloc ctx reg_id reg_events reg_flags reg_vendor
          reg_product reg_class reg_cb reg_ud reg_hp).1 hr
      exact hfresh (heq.symm.trans (hinvs inv hinv))
    · obtain ⟨hctx, hnext, hinvs, hw⟩ :=
        (register_shape reg_has reg_alloc ctx reg_id reg_events reg_flags reg_vendor
          reg_product reg_class reg_cb reg_ud reg_hp).2 hr
      rw [hinvs] at hinv
      exact absurd hinv (List.not_mem_nil inv)
  · intro cb hcb heq
    by_cases hr : (libusb_hotplug_register_callback reg_has reg_alloc ctx reg_id reg_events
        reg_flags reg_vendor reg_product reg_class reg_cb reg_ud reg_hp).ret =
        libusb_error.SUCCESS
    · obtain ⟨ncb, hhdl, hnf, hcbs, hnext, hinvs, _⟩ :=
        (register_shape reg_has reg_alloc ctx reg_id reg_events reg_flags reg_vendor
          reg_product reg_class reg_cb reg_ud reg_hp).1 hr
      rw [hcbs] at hcb
      rcases List.mem_append.mp hcb with hold | hnew
      · exact hpend cb hold heq
      · rcases List.mem_singleton.mp hnew with rfl
        exact absurd (heq.symm.trans hhdl) hfresh
    · obtain ⟨hctx, hnext, hinvs, hw⟩ :=
        (register_shape reg_has reg_alloc ctx reg_id reg_events reg_flags reg_vendor
          reg_product reg_class reg_cb reg_ud reg_hp).2 hr
      rw [hctx] at hcb
      exact hpend cb hcb heq

/-- A pending-removal entry used to exercise claim C2 on a concrete input. -/
def cbent2 : libusb_hotplug_callback :=
  { ctx := 0, vendor_id := LIBUSB_HOTPLUG_MATCH_ANY,
    product_id := LIBUSB_HOTPLUG_MATCH_ANY, dev_class := LIBUSB_HOTPLUG_MATCH_ANY,
    flags := 0, events := 3, cb := fun _ _ _ _ => true, user_data := 0,
    needs_free := true, handle := 5 }

/-- Device for the C2 witness. -/
def dev2 : libusb_device :=
  { ctx := 0, idVendor := 7, idProduct := 8, bDeviceClass := 9 }

/-- Context for the C2 witness: one pending-removal entry. -/
def ctx2 : libusb_context :=
  { ctxId := 0, hotplug_cbs := [cbent2], open_devs := [], usb_devs := [] }

/-- Witness for claim C2 at a concrete pending entry (handle 5): the
hypotheses hold by computation and the theorem applies. -/
theorem pending_removal_is_terminal_witness :
    (libusb_hotplug_deregister_callback true ctx2 9).2 = [] ∧
    (usbi_hotplug_deregister_all ctx2).hotplug_cbs = [] := by
  have h := pending_removal_is_terminal ctx2 dev2 libusb_hotplug_event.DEVICE_ARRIVED 5
    true 9 true true 1 3 0 LIBUSB_HOTPLUG_MATCH_ANY LIBUSB_HOTPLUG_MATCH_ANY
    LIBUSB_HOTPLUG_MATCH_ANY (some (fun _ _ _ _ => false)) 0 true
    (by decide) (by decide)
  exact ⟨h.2.2.1, h.2.2.2.2.2.2⟩

/-- In-order concatenation of the Matcher's invocations over an entry list:
the formal statement of visiting entries first-registered-first within one
dispatch pass. -/
def visitInvs (dev : libusb_device) (event : libusb_hotplug_event) :
    List libusb_hotplug_callback → List Invocation
  | [] => []
  | hotplug_cb :: rest =>
    (usbi_hotplug_match_cb dev event hotplug_cb).2 ++ visitInvs dev event rest

/-- The sweep's invocation log is the in-order concatenation over the entry
list. -/
theorem hotplugPass_invs_eq (dev : libusb_device) (event : libusb_hotplug_event)
    (cbs : List libusb_hotplug_callback) :
    (hotplugPass dev event cbs).2.1 = visitInvs dev event cbs := by
  induction cbs with
  | nil => rfl
  | cons hotplug_cb rest ih =>
    rw [hotplugPass_snd]
    show (usbi_hotplug_match_cb dev event hotplug_cb).2 ++
      (hotplugPass dev event rest).2.1 = _
    rw [ih]
    rfl

/-- Claim C5: within one dispatch pass the entries are visited in
registration order: the Dispatcher's invocation log equals the in-order
concatenation of the Matcher's invocations over the registry list, and a
successful registration appends its entry (carrying the fresh handle) at
the tail of that list, so the earliest-registered entry is evaluated first
and the most recent last. -/
theorem dispatch_visits_in_registration_order
    (ctx : libusb_context) (dev : libusb_device) (event : libusb_hotplug_event)
    (reg_has reg_alloc : Bool) (reg_id reg_events reg_flags : Nat)
    (reg_vendor reg_product reg_class : Int) (reg_cb : Option CbFn)
    (reg_ud : Nat) (reg_hp : Bool) :
    ((usbi_hotplug_match ctx dev event).2.1 = visitInvs dev event ctx.hotplug_cbs) ∧
    ((libusb_hotplug_register_callback reg_has reg_alloc ctx reg_id reg_events reg_flags
        reg_vendor reg_product reg_class reg_cb reg_ud reg_hp).ret =
        libusb_error.SUCCESS →
      (libusb_hotplug_register_callback reg_has reg_alloc ctx reg_id reg_events reg_flags
        reg_vendor reg_product reg_class reg_cb reg_ud reg_hp).ctx.hotplug_cbs.map
          (fun hotplug_cb => hotplug_cb.handle) =
        ctx.hotplug_cbs.map (fun hotplug_cb => hotplug_cb.handle) ++ [reg_id]) := by
  constructor
  · rw [dispatch_invs]
    exact hotplugPass_invs_eq dev event ctx.hotplug_cbs
  · intro hr
    obtain ⟨ncb, hhdl, hnf, hcbs, _⟩ :=
      (register_shape reg_has reg_alloc ctx reg_id reg_events reg_flags reg_vendor
        reg_product reg_class reg_cb reg_ud reg_hp).1 hr
    rw [hcbs, List.map_append]
    rw [show List.map (fun hotplug_cb => hotplug_cb.handle) [ncb] = [ncb.handle] from rfl,
      hhdl]

/-- First active entry for the C5 witness (handle 1). -/
def cbent5a : libusb_hotplug_callback :=
  { ctx := 0, vendor_id := LIBUSB_HOTPLUG_MATCH_ANY,
    product_id := LIBUSB_HOTPLUG_MATCH_ANY, dev_class := LIBUSB_HOTPLUG_MATCH_ANY,
    flags := 0, events := 3, cb := fun _ _ _ _ => false, user_data := 11,
    needs_free := false, handle := 1 }

/-- Second active entry for the C5 witness (handle 2). -/
def cbent5b : libusb_hotplug_callback :=
  { ctx := 0, vendor_id := LIBUSB_HOTPLUG_MATCH_ANY,
    product_id := LIBUSB_HOTPLUG_MATCH_ANY, dev_class := LIBUSB_HOTPLUG_MATCH_ANY,
    flags := 0, events := 3, cb := fun _ _ _ _ => false, user_data := 22,
    needs_free := false, handle := 2 }

/-- Device for the C5 witness, owned by the default context. -/
def dev5 : libusb_device :=
  { ctx := 0, idVendor := 7, idProduct := 8, bDeviceClass := 9 }

/-- Context for the C5 witness with entries registered in order 1, 2. -/
def ctx5 : libusb_context :=
  { ctxId := 0, hotplug_cbs := [cbent5a, cbent5b], open_devs := [], usb_devs := [] }

/-- Witness for claim C5: on a two-entry registry the dispatch log is the
in-order concatenation, and a concrete successful registration with counter
7 appends handle 7 after handles 1 and 2. -/
theorem dispatch_visits_in_registration_order_witness :
    (usbi_hotplug_match ctx5 dev5 libusb_hotplug_event.DEVICE_ARRIVED).2.1 =
      visitInvs dev5 libusb_hotplug_event.DEVICE_ARRIVED ctx5.hotplug_cbs ∧
    (libusb_hotplug_register_callback true true ctx5 7 3 0
      LIBUSB_HOTPLUG_MATCH_ANY LIBUSB_HOTPLUG_MATCH_ANY LIBUSB_HOTPLUG_MATCH_ANY
      (some (fun _ _ _ _ => false)) 0 true).ctx.hotplug_cbs.map
        (fun hotplug_cb => hotplug_cb.handle) = [1, 2, 7] := by
  have h := dispatch_visits_in_registration_order ctx5 dev5
    libusb_hotplug_event.DEVICE_ARRIVED true true 7 3 0
    LIBUSB_HOTPLUG_MATCH_ANY LIBUSB_HOTPLUG_MATCH_ANY LIBUSB_HOTPLUG_MATCH_ANY
    (some (fun _ _ _ _ => false)) 0 true
  exact ⟨h.1, (h.2 (by decide)).trans (by decide)⟩

/-- Claim C6: a LEFT-event dispatch marks, position by position, every open
handle bound to the departed device as disconnected and leaves every handle
bound to a different device unchanged, independently of the registry's
contents; an ARRIVED-event dispatch leaves the open handles untouched. -/
theorem left_event_disconnects_all
    (ctx : libusb_context) (dev : libusb_device) (event : libusb_hotplug_event) :
    (event = libusb_hotplug_event.DEVICE_LEFT →
      ∀ i : Nat,
        (usbi_hotplug_match ctx dev event).1.open_devs[i]? =
          (ctx.open_devs[i]?).map
            (fun handle =>
              if dev = handle.dev then usbi_handle_disconnect handle else handle)) ∧
    (event = libusb_hotplug_event.DEVICE_ARRIVED →
      (usbi_hotplug_match ctx dev event).1.open_devs = ctx.open_devs) := by
  constructor
  · rintro rfl i
    show (ctx.open_devs.map fun handle =>
      if dev = handle.dev then usbi_handle_disconnect handle else handle)[i]? = _
    rw [List.getElem?_map]
  · rintro rfl
    rfl

/-- Device for the C6 witness. -/
def dev6 : libusb_device :=
  { ctx := 3, idVendor := 10, idProduct := 11, bDeviceClass := 12 }

/-- A second device for the C6 witness, bound to the unaffected handle. -/
def dev6b : libusb_device :=
  { ctx := 3, idVendor := 20, idProduct := 21, bDeviceClass := 22 }

/-- Open handle on the departing device. -/
def hnd6a : libusb_device_handle := { dev := dev6, disconnected := false }

/-- Open handle on the other device. -/
def hnd6b : libusb_device_handle := { dev := dev6b, disconnected := false }

/-- Context for the C6 witness with two open handles. -/
def ctx6 : libusb_context :=
  { ctxId := 3, hotplug_cbs := [], open_devs := [hnd6a, hnd6b], usb_devs := [] }

/-- Witness for claim C6: after a LEFT dispatch for dev6 the handle bound
to dev6 is disconnected, the handle bound to dev6b is unchanged, and an
ARRIVED dispatch changes no handle. -/
theorem left_event_disconnects_all_witness :
    (usbi_hotplug_match ctx6 dev6 libusb_hotplug_event.DEVICE_LEFT).1.open_devs[0]? =
      some { dev := dev6, disconnected := true } ∧
    (usbi_hotplug_match ctx6 dev6 libusb_hotplug_event.DEVICE_LEFT).1.open_devs[1]? =
      some hnd6b ∧
    (usbi_hotplug_match ctx6 dev6 libusb_hotplug_event.DEVICE_ARRIVED).1.open_devs =
      ctx6.open_devs := by
  have h := left_event_disconnects_all ctx6 dev6 libusb_hotplug_event.DEVICE_LEFT
  have h2 := left_event_disconnects_all ctx6 dev6 libusb_hotplug_event.DEVICE_ARRIVED
  exact ⟨(h.1 rfl 0).trans (by decide), (h.1 rfl 1).trans (by decide), h2.2 rfl⟩

/-- Claim C7: register returns NOT_SUPPORTED without the hotplug
capability; INVALID_PARAM when the callback is missing or a non-ANY filter
field does not fit its bounded domain (vendor/product 16 bits, class 8
bits); NO_MEM on allocation failure; and on every non-success return the
context, in particular its registry, is unchanged. -/
theorem register_error_paths (has_hotplug alloc_ok : Bool)
    (ctx : libusb_context) (handle_id events flags : Nat)
    (vendor_id product_id dev_class : Int) (cb_fn : Option CbFn)
    (user_data : Nat) (handle_present : Bool) :
    (has_hotplug = false →
      (libusb_hotplug_register_callback has_hotplug alloc_ok ctx handle_id events flags
        vendor_id product_id dev_class cb_fn user_data handle_present).ret =
        libusb_error.ERROR_NOT_SUPPORTED) ∧
    (has_hotplug = true →
      ((LIBUSB_HOTPLUG_MATCH_ANY ≠ vendor_id ∧ maskedBits16 vendor_id) ∨
       (LIBUSB_HOTPLUG_MATCH_ANY ≠ product_id ∧ maskedBits16 product_id) ∨
       (LIBUSB_HOTPLUG_MATCH_ANY ≠ dev_class ∧ maskedBits8 dev_class) ∨
       cb_fn.isNone = true) →
      (libusb_hotplug_register_callback has_hotplug alloc_ok ctx handle_id events flags
        vendor_id product_id dev_class cb_fn user_data handle_present).ret =
        libusb_error.ERROR_INVALID_PARAM) ∧
    (has_hotplug = true → alloc_ok = false →
      ¬((LIBUSB_HOTPLUG_MATCH_ANY ≠ vendor_id ∧ maskedBits16 vendor_id) ∨
        (LIBUSB_HOTPLUG_MATCH_ANY ≠ product_id ∧ maskedBits16 product_id) ∨
        (LIBUSB_HOTPLUG_MATCH_ANY ≠ dev_class ∧ maskedBits8 dev_class) ∨
        cb_fn.isNone = true) →
      (libusb_hotplug_register_callback has_hotplug alloc_ok ctx handle_id events flags
        vendor_id product_id dev_class cb_fn user_data handle_present).ret =
        libusb_error.ERROR_NO_MEM) ∧
    ((libusb_hotplug_register_callback has_hotplug alloc_ok ctx handle_id events flags
        vendor_id product_id dev_class cb_fn user_data handle_present).ret ≠
        libusb_error.SUCCESS →
      (libusb_hotplug_register_callback has_hotplug alloc_ok ctx handle_id events flags
        vendor_id product_id dev_class cb_fn user_data handle_present).ctx = ctx) := by
  refine ⟨?_, ?_, ?_, ?_⟩
  · intro hh
    subst hh
    rfl
  · intro hh hinv
    subst hh
    unfold libusb_hotplug_register_callback
    rw [if_neg (by simp), if_pos hinv]
  · intro hh ha hninv
    subst hh
    subst ha
    unfold libusb_hotplug_register_callback
    rw [if_neg (by simp), if_neg hninv, if_pos (by decide)]
  · intro hr
    exact ((register_shape has_hotplug alloc_ok ctx handle_id events flags vendor_id
      product_id dev_class cb_fn user_data handle_present).2 hr).1

/-- Context for the C7 witness. -/
def ctx7 : libusb_context :=
  { ctxId := 2, hotplug_cbs := [], open_devs := [], usb_devs := [] }

/-- Witness for claim C7: the capability-missing case, a vendor id needing
more than 16 bits, and an allocation failure with valid parameters, each at
a concrete input; the failed call leaves the registry without a new entry. -/
theorem register_error_paths_witness :
    (libusb_hotplug_register_callback false true ctx7 1 3 0
      LIBUSB_HOTPLUG_MATCH_ANY LIBUSB_HOTPLUG_MATCH_ANY LIBUSB_HOTPLUG_MATCH_ANY
      (some (fun _ _ _ _ => false)) 0 true).ret = libusb_error.ERROR_NOT_SUPPORTED ∧
    (libusb_hotplug_register_callback true true ctx7 1 3 0
      (0x10000 : Int) LIBUSB_HOTPLUG_MATCH_ANY LIBUSB_HOTPLUG_MATCH_ANY
      (some (fun _ _ _ _ => false)) 0 true).ret = libusb_error.ERROR_INVALID_PARAM ∧
    (libusb_hotplug_register_callback true false ctx7 1 3 0
      (0x045a : Int) (0x5005 : Int) LIBUSB_HOTPLUG_MATCH_ANY
      (some (fun _ _ _ _ => false)) 0 true).ret = libusb_error.ERROR_NO_MEM ∧
    (libusb_hotplug_register_callback true true ctx7 1 3 0
      (0x10000 : Int) LIBUSB_HOTPLUG_MATCH_ANY LIBUSB_HOTPLUG_MATCH_ANY
      (some (fun _ _ _ _ => false)) 0 true).ctx = ctx7 := by
  refine ⟨?_, ?_, ?_, ?_⟩
  · exact (register_error_paths false true ctx7 1 3 0
      LIBUSB_HOTPLUG_MATCH_ANY LIBUSB_HOTPLUG_MATCH_ANY LIBUSB_HOTPLUG_MATCH_ANY
      (some (fun _ _ _ _ => false)) 0 true).1 rfl
  · exact (register_error_paths true true ctx7 1 3 0
      (0x10000 : Int) LIBUSB_HOTPLUG_MATCH_ANY LIBUSB_HOTPLUG_MATCH_ANY
      (some (fun _ _ _ _ => false)) 0 true).2.1 rfl
      (Or.inl ⟨by decide, by decide⟩)
  · exact (register_error_paths true false ctx7 1 3 0
      (0x045a : Int) (0x5005 : Int) LIBUSB_HOTPLUG_MATCH_ANY
      (some (fun _ _ _ _ => false)) 0 true).2.2.1 rfl rfl (by decide)
  · exact (register_error_paths true true ctx7 1 3 0
      (0x10000 : Int) LIBUSB_HOTPLUG_MATCH_ANY LIBUSB_HOTPLUG_MATCH_ANY
      (some (fun _ _ _ _ => false)) 0 true).2.2.2 (by decide)

/-- Marking map of deregistration is the identity when no entry carries the
handle. -/
theorem map_mark_id (handle : Nat) (l : List libusb_hotplug_callback)
    (h : ∀ cb ∈ l, cb.handle ≠ handle) :
    l.map (fun hotplug_cb =>
      if handle = hotplug_cb.handle then { hotplug_cb with needs_free := true }
      else hotplug_cb) = l := by
  induction l with
  | nil => rfl
  | cons a rest ih =>
    rw [List.map_cons, if_neg (fun he => h a (List.mem_cons_self a rest) he.symm),
      ih (fun cb hcb => h cb (List.mem_cons_of_mem a hcb))]

/-- Claim C8: deregister surfaces no error (its C type is void; the model
returns only the context and the empty invocation log): without hotplug
capability, or when no entry carries the handle, it is the identity on the
context; otherwise it maps the registry pointwise, setting needs_free on
exactly the entries carrying the handle and leaving every other entry and
every other field (and the rest of the context) unchanged, unlinking and
freeing nothing. -/
theorem deregister_is_silent_and_deferred (has_hotplug : Bool)
    (ctx : libusb_context) (handle : Nat) :
    (has_hotplug = false →
      libusb_hotplug_deregister_callback has_hotplug ctx handle = (ctx, [])) ∧
    ((∀ cb ∈ ctx.hotplug_cbs, cb.handle ≠ handle) →
      libusb_hotplug_deregister_callback has_hotplug ctx handle = (ctx, [])) ∧
    (has_hotplug = true →
      (libusb_hotplug_deregister_callback has_hotplug ctx handle).1.hotplug_cbs =
        ctx.hotplug_cbs.map (fun hotplug_cb =>
          if handle = hotplug_cb.handle then { hotplug_cb with needs_free := true }
          else hotplug_cb) ∧
      (libusb_hotplug_deregister_callback has_hotplug ctx handle).1.open_devs =
        ctx.open_devs ∧
      (libusb_hotplug_deregister_callback has_hotplug ctx handle).1.usb_devs =
        ctx.usb_devs ∧
      (libusb_hotplug_deregister_callback has_hotplug ctx handle).1.ctxId = ctx.ctxId ∧
      (libusb_hotplug_deregister_callback has_hotplug ctx handle).2 = []) := by
  refine ⟨?_, ?_, ?_⟩
  · intro hh
    subst hh
    rfl
  · intro hnone
    cases has_hotplug with
    | false => rfl
    | true =>
      show ({ ctx with hotplug_cbs := ctx.hotplug_cbs.map _ }, ([] : List Invocation)) = _
      rw [map_mark_id handle ctx.hotplug_cbs hnone]
  · intro hh
    subst hh
    exact ⟨rfl, rfl, rfl, rfl, rfl⟩

/-- An active entry with handle 4 for the C8 witness. -/
def cbent8 : libusb_hotplug_callback :=
  { ctx := 0, vendor_id := LIBUSB_HOTPLUG_MATCH_ANY,
    product_id := LIBUSB_HOTPLUG_MATCH_ANY, dev_class := LIBUSB_HOTPLUG_MATCH_ANY,
    flags := 0, events := 3, cb := fun _ _ _ _ => false, user_data := 0,
    needs_free := false, handle := 4 }

/-- Context for the C8 witness. -/
def ctx8 : libusb_context :=
  { ctxId := 0, hotplug_cbs := [cbent8], open_devs := [], usb_devs := [] }

/-- Witness for claim C8: without capability, or with an unknown handle,
deregistration is the identity; with the matching handle the single entry's
state flips to pending removal while the registry keeps its one slot. -/
theorem deregister_is_silent_and_deferred_witness :
    libusb_hotplug_deregister_callback false ctx8 4 = (ctx8, []) ∧
    libusb_hotplug_deregister_callback true ctx8 9 = (ctx8, []) ∧
    (libusb_hotplug_deregister_callback true ctx8 4).1.hotplug_cbs.map
      (fun hotplug_cb => hotplug_cb.needs_free) = [true] ∧
    (libusb_hotplug_deregister_callback true ctx8 4).1.hotplug_cbs.map
      (fun hotplug_cb => hotplug_cb.handle) = [4] := by
  have h := deregister_is_silent_and_deferred true ctx8 4
  refine ⟨(deregister_is_silent_and_deferred false ctx8 4).1 rfl,
    (deregister_is_silent_and_deferred true ctx8 9).2.1 (by decide), ?_, ?_⟩
  · rw [(h.2.2 rfl).1]
    decide
  · rw [(h.2.2 rfl).1]
    decide

/-- Arguments of one register call in a sequence of registrations; the
process-wide static counter is deliberately not part of this record, since
it is threaded through the sequence by assignedHandles. -/
structure RegArgs where
  has_hotplug : Bool
  alloc_ok : Bool
  ctx : libusb_context
  events : Nat
  flags : Nat
  vendor_id : Int
  product_id : Int
  dev_class : Int
  cb_fn : Option CbFn
  user_data : Nat
  handle_present : Bool

/-- Run a sequence of register calls (possibly on different contexts),
threading the process-wide static counter exactly as the C static local
handle_id is threaded, and collect the handle assigned by each successful
call. -/
def assignedHandles (handle_id : Nat) : List RegArgs → List Nat
  | [] => []
  | r :: rest =>
    let res := libusb_hotplug_register_callback r.has_hotplug r.alloc_ok r.ctx handle_id
      r.events r.flags r.vendor_id r.product_id r.dev_class r.cb_fn r.user_data
      r.handle_present
    if res.ret = libusb_error.SUCCESS then
      handle_id :: assignedHandles res.next_handle_id rest
    else
      assignedHandles res.next_handle_id rest

/-- The counter after a register call: advanced by one on success,
untouched on failure. -/
theorem register_next_id (has_hotplug alloc_ok : Bool)
    (ctx : libusb_context) (handle_id events flags : Nat)
    (vendor_id product_id dev_class : Int) (cb_fn : Option CbFn)
    (user_data : Nat) (handle_present : Bool) :
    (libusb_hotplug_register_callback has_hotplug alloc_ok ctx handle_id events flags
        vendor_id product_id dev_class cb_fn user_data handle_present).next_handle_id =
      (if (libusb_hotplug_register_callback has_hotplug alloc_ok ctx handle_id events flags
          vendor_id product_id dev_class cb_fn user_data handle_present).ret =
          libusb_error.SUCCESS
        then handle_id + 1 else handle_id) := by
  by_cases hr : (libusb_hotplug_register_callback has_hotplug alloc_ok ctx handle_id events
      flags vendor_id product_id dev_class cb_fn user_data handle_present).ret =
      libusb_error.SUCCESS
  · rw [if_pos hr]
    obtain ⟨ncb, _, _, _, hnext, _⟩ :=
      (register_shape has_hotplug alloc_ok ctx handle_id events flags vendor_id product_id
        dev_class cb_fn user_data handle_present).1 hr
    exact hnext
  · rw [if_neg hr]
    exact ((register_shape has_hotplug alloc_ok ctx handle_id events flags vendor_id
      product_id dev_class cb_fn user_data handle_present).2 hr).2.1

/-- Unfolding equation of assignedHandles on a nonempty request list. -/
theorem assignedHandles_cons (handle_id : Nat) (r : RegArgs) (rest : List RegArgs) :
    assignedHandles handle_id (r :: rest) =
      if (libusb_hotplug_register_callback r.has_hotplug r.alloc_ok r.ctx handle_id
          r.events r.flags r.vendor_id r.product_id r.dev_class r.cb_fn r.user_data
          r.handle_present).ret = libusb_error.SUCCESS then
        handle_id :: assignedHandles (libusb_hotplug_register_callback r.has_hotplug
          r.alloc_ok r.ctx handle_id r.events r.flags r.vendor_id r.product_id r.dev_class
          r.cb_fn r.user_data r.handle_present).next_handle_id rest
      else
        assignedHandles (libusb_hotplug_register_callback r.has_hotplug r.alloc_ok r.ctx
          handle_id r.events r.flags r.vendor_id r.product_id r.dev_class r.cb_fn
          r.user_data r.handle_present).next_handle_id rest := rfl

/-- The handles assigned from any starting counter value form the
consecutive block starting at that value. -/
theorem assignedHandles_range (reqs : List RegArgs) :
    ∀ handle_id : Nat,
      assignedHandles handle_id reqs =
        List.range' handle_id (assignedHandles handle_id reqs).length := by
  induction reqs with
  | nil => intro handle_id; rfl
  | cons r rest ih =>
    intro handle_id
    by_cases hr : (libusb_hotplug_register_callback r.has_hotplug r.alloc_ok r.ctx handle_id
        r.events r.flags r.vendor_id r.product_id r.dev_class r.cb_fn r.user_data
        r.handle_present).ret = libusb_error.SUCCESS
    · rw [assignedHandles_cons, if_pos hr, register_next_id, if_pos hr,
        List.length_cons, List.range'_succ]
      exact congrArg (List.cons handle_id) (ih (handle_id + 1))
    · rw [assignedHandles_cons, if_neg hr, register_next_id, if_neg hr]
      exact ih handle_id

/-- Claim C9: running any sequence of register calls (in any mix of
contexts) against the process-wide counter started at 1 assigns the
consecutive handles 1, 2, 3, ...: the assigned handles are strictly
increasing, pairwise distinct and at least 1; each successful call hands
out the current counter value as the new entry's handle and advances the
counter by one, and a failed call leaves the counter untouched, so no
handle is ever reused. -/
theorem handle_ids_process_unique (reqs : List RegArgs) :
    (assignedHandles 1 reqs = List.range' 1 (assignedHandles 1 reqs).length) ∧
    (assignedHandles 1 reqs).Pairwise (· < ·) ∧
    (assignedHandles 1 reqs).Nodup ∧
    (∀ h ∈ assignedHandles 1 reqs, 1 ≤ h) ∧
    (∀ (has_hotplug alloc_ok : Bool) (ctx : libusb_context)
        (handle_id events flags : Nat) (vendor_id product_id dev_class : Int)
        (cb_fn : Option CbFn) (user_data : Nat) (handle_present : Bool),
      ((libusb_hotplug_register_callback has_hotplug alloc_ok ctx handle_id events flags
          vendor_id product_id dev_class cb_fn user_data handle_present).ret =
          libusb_error.SUCCESS →
        (libusb_hotplug_register_callback has_hotplug alloc_ok ctx handle_id events flags
          vendor_id product_id dev_class cb_fn user_data handle_present).next_handle_id =
          handle_id + 1 ∧
        (libusb_hotplug_register_callback has_hotplug alloc_ok ctx handle_id events flags
          vendor_id product_id dev_class cb_fn user_data handle_present).ctx.hotplug_cbs.map
            (fun hotplug_cb => hotplug_cb.handle) =
          ctx.hotplug_cbs.map (fun hotplug_cb => hotplug_cb.handle) ++ [handle_id]) ∧
      ((libusb_hotplug_register_callback has_hotplug alloc_ok ctx handle_id events flags
          vendor_id product_id dev_class cb_fn user_data handle_present).ret ≠
          libusb_error.SUCCESS →
        (libusb_hotplug_register_callback has_hotplug alloc_ok ctx handle_id events flags
          vendor_id product_id dev_class cb_fn user_data handle_present).next_handle_id =
          handle_id)) := by
  refine ⟨assignedHandles_range reqs 1, ?_, ?_, ?_, ?_⟩
  · rw [assignedHandles_range reqs 1]
    exact List.pairwise_lt_range' 1 (assignedHandles 1 reqs).length
  · rw [assignedHandles_range reqs 1]
    exact List.nodup_range' 1 (assignedHandles 1 reqs).length
  · intro h hmem
    rw [assignedHandles_range reqs 1] at hmem
    exact (List.mem_range'_1.mp hmem).1
  · intro has_hotplug alloc_ok ctx handle_id events flags vendor_id product_id dev_class
      cb_fn user_data handle_present
    constructor
    · intro hr
      obtain ⟨ncb, hhdl, hnf, hcbs, hnext, _⟩ :=
        (register_shape has_hotplug alloc_ok ctx handle_id events flags vendor_id
          product_id dev_class cb_fn user_data handle_present).1 hr
      refine ⟨hnext, ?_⟩
      rw [hcbs, List.map_append,
        show List.map (fun hotplug_cb => hotplug_cb.handle) [ncb] = [ncb.handle] from rfl,
        hhdl]
    · intro hr
      exact ((register_shape has_hotplug alloc_ok ctx handle_id events flags vendor_id
        product_id dev_class cb_fn user_data handle_present).2 hr).2.1

/-- First context for the C9 witness. -/
def ctx9a : libusb_context :=
  { ctxId := 1, hotplug_cbs := [], open_devs := [], usb_devs := [] }

/-- Second, distinct context for the C9 witness. -/
def ctx9b : libusb_context :=
  { ctxId := 2, hotplug_cbs := [], open_devs := [], usb_devs := [] }

/-- A valid register request against the first context. -/
def req9a : RegArgs :=
  { has_hotplug := true, alloc_ok := true, ctx := ctx9a, events := 3, flags := 0,
    vendor_id := LIBUSB_HOTPLUG_MATCH_ANY, product_id := LIBUSB_HOTPLUG_MATCH_ANY,
    dev_class := LIBUSB_HOTPLUG_MATCH_ANY, cb_fn := some (fun _ _ _ _ => false),
    user_data := 0, handle_present := true }

/-- A valid register request against the second context. -/
def req9b : RegArgs :=
  { has_hotplug := true, alloc_ok := true, ctx := ctx9b, events := 3, flags := 0,
    vendor_id := LIBUSB_HOTPLUG_MATCH_ANY, product_id := LIBUSB_HOTPLUG_MATCH_ANY,
    dev_class := LIBUSB_HOTPLUG_MATCH_ANY, cb_fn := some (fun _ _ _ _ => false),
    user_data := 0, handle_present := true }

/-- Witness for claim C9: two successful registrations through two
different contexts receive the distinct handles 1 and 2, and the first call
advances the counter to 2. -/
theorem handle_ids_process_unique_witness :
    assignedHandles 1 [req9a, req9b] = [1, 2] ∧
    (libusb_hotplug_register_callback true true ctx9a 1 3 0
      LIBUSB_HOTPLUG_MATCH_ANY LIBUSB_HOTPLUG_MATCH_ANY LIBUSB_HOTPLUG_MATCH_ANY
      (some (fun _ _ _ _ => false)) 0 true).next_handle_id = 2 := by
  have h := handle_ids_process_unique [req9a, req9b]
  refine ⟨h.1.trans (by decide), ?_⟩
  exact ((h.2.2.2.2 true true ctx9a 1 3 0
    LIBUSB_HOTPLUG_MATCH_ANY LIBUSB_HOTPLUG_MATCH_ANY LIBUSB_HOTPLUG_MATCH_ANY
    (some (fun _ _ _ _ => false)) 0 true).1 (by decide)).1

/-- Claim C10: the optional output-handle location does not influence
registration: with a null location register behaves identically (same
return, same context update, same counter, same enumeration invocations)
except that nothing is written, while a non-null location receives the
fresh handle on success; with valid parameters the call still succeeds and
inserts the active entry at the registry tail. -/
theorem register_with_null_handle_out (has_hotplug alloc_ok : Bool)
    (ctx : libusb_context) (handle_id events flags : Nat)
    (vendor_id product_id dev_class : Int) (cb_fn : Option CbFn) (user_data : Nat) :
    ((libusb_hotplug_register_callback has_hotplug alloc_ok ctx handle_id events flags
        vendor_id product_id dev_class cb_fn user_data false).ret =
      (libusb_hotplug_register_callback has_hotplug alloc_ok ctx handle_id events flags
        vendor_id product_id dev_class cb_fn user_data true).ret ∧
     (libusb_hotplug_register_callback has_hotplug alloc_ok ctx handle_id events flags
        vendor_id product_id dev_class cb_fn user_data false).ctx =
      (libusb_hotplug_register_callback has_hotplug alloc_ok ctx handle_id events flags
        vendor_id product_id dev_class cb_fn user_data true).ctx ∧
     (libusb_hotplug_register_callback has_hotplug alloc_ok ctx handle_id events flags
        vendor_id product_id dev_class cb_fn user_data false).next_handle_id =
      (libusb_hotplug_register_callback has_hotplug alloc_ok ctx handle_id events flags
        vendor_id product_id dev_class cb_fn user_data true).next_handle_id ∧
     (libusb_hotplug_register_callback has_hotplug alloc_ok ctx handle_id events flags
        vendor_id product_id dev_class cb_fn user_data false).invs =
      (libusb_hotplug_register_callback has_hotplug alloc_ok ctx handle_id events flags
        vendor_id product_id dev_class cb_fn user_data true).invs ∧
     (libusb_hotplug_register_callback has_hotplug alloc_ok ctx handle_id events flags
        vendor_id product_id dev_class cb_fn user_data false).written = none ∧
     ((libusb_hotplug_register_callback has_hotplug alloc_ok ctx handle_id events flags
          vendor_id product_id dev_class cb_fn user_data true).ret =
          libusb_error.SUCCESS →
       (libusb_hotplug_register_callback has_hotplug alloc_ok ctx handle_id events flags
         vendor_id product_id dev_class cb_fn user_data true).written =
         some handle_id)) ∧
    (has_hotplug = true → alloc_ok = true →
      ¬((LIBUSB_HOTPLUG_MATCH_ANY ≠ vendor_id ∧ maskedBits16 vendor_id) ∨
        (LIBUSB_HOTPLUG_MATCH_ANY ≠ product_id ∧ maskedBits16 product_id) ∨
        (LIBUSB_HOTPLUG_MATCH_ANY ≠ dev_class ∧ maskedBits8 dev_class) ∨
        cb_fn.isNone = true) →
      (libusb_hotplug_register_callback has_hotplug alloc_ok ctx handle_id events flags
        vendor_id product_id dev_class cb_fn user_data false).ret =
        libusb_error.SUCCESS ∧
      (libusb_hotplug_register_callback has_hotplug alloc_ok ctx handle_id events flags
        vendor_id product_id dev_class cb_fn user_data false).ctx.hotplug_cbs.map
          (fun hotplug_cb => hotplug_cb.handle) =
        ctx.hotplug_cbs.map (fun hotplug_cb => hotplug_cb.handle) ++ [handle_id] ∧
      (libusb_hotplug_register_callback has_hotplug alloc_ok ctx handle_id events flags
        vendor_id product_id dev_class cb_fn user_data false).ctx.hotplug_cbs.map
          (fun hotplug_cb => hotplug_cb.needs_free) =
        ctx.hotplug_cbs.map (fun hotplug_cb => hotplug_cb.needs_free) ++ [false]) := by
  constructor
  · refine ⟨?_, ?_, ?_, ?_, ?_, ?_⟩
    · unfold libusb_hotplug_register_callback
      split_ifs <;> first | rfl | assumption
    · unfold libusb_hotplug_register_callback
      split_ifs <;> first | rfl | assumption
    · unfold libusb_hotplug_register_callback
      split_ifs <;> first | rfl | assumption
    · unfold libusb_hotplug_register_callback
      split_ifs <;> first | rfl | assumption
    · unfold libusb_hotplug_register_callback
      split_ifs <;> first | rfl | assumption
    · intro hr
      obtain ⟨ncb, _, _, _, _, _, _, _, hw⟩ :=
        (register_shape has_hotplug alloc_ok ctx handle_id events flags vendor_id
          product_id dev_class cb_fn user_data true).1 hr
      exact hw
  · intro hh ha hninv
    subst hh
    subst ha
    have hr : (libusb_hotplug_register_callback true true ctx handle_id events flags
        vendor_id product_id dev_class cb_fn user_data false).ret =
        libusb_error.SUCCESS := by
      unfold libusb_hotplug_register_callback
      rw [if_neg (by simp), if_neg hninv, if_neg (by decide)]
    obtain ⟨ncb, hhdl, hnf, hcbs, _⟩ :=
      (register_shape true true ctx handle_id events flags vendor_id product_id dev_class
        cb_fn user_data false).1 hr
    refine ⟨hr, ?_, ?_⟩
    · rw [hcbs, List.map_append,
        show List.map (fun hotplug_cb => hotplug_cb.handle) [ncb] = [ncb.handle] from rfl,
        hhdl]
    · rw [hcbs, List.map_append,
        show List.map (fun hotplug_cb => hotplug_cb.needs_free) [ncb] = [ncb.needs_free]
          from rfl,
        hnf]

/-- Context for the C10 witness. -/
def ctx10 : libusb_context :=
  { ctxId := 4, hotplug_cbs := [], open_devs := [], usb_devs := [] }

/-- Witness for claim C10: a concrete valid registration with a null
output location succeeds, writes nothing, inserts the entry with handle 1,
and the same call with a non-null location writes handle 1. -/
theorem register_with_null_handle_out_witness :
    (libusb_hotplug_register_callback true true ctx10 1 3 0
      LIBUSB_HOTPLUG_MATCH_ANY LIBUSB_HOTPLUG_MATCH_ANY LIBUSB_HOTPLUG_MATCH_ANY
      (some (fun _ _ _ _ => false)) 0 false).ret = libusb_error.SUCCESS ∧
    (libusb_hotplug_register_callback true true ctx10 1 3 0
      LIBUSB_HOTPLUG_MATCH_ANY LIBUSB_HOTPLUG_MATCH_ANY LIBUSB_HOTPLUG_MATCH_ANY
      (some (fun _ _ _ _ => false)) 0 false).written = none ∧
    (libusb_hotplug_register_callback true true ctx10 1 3 0
      LIBUSB_HOTPLUG_MATCH_ANY LIBUSB_HOTPLUG_MATCH_ANY LIBUSB_HOTPLUG_MATCH_ANY
      (some (fun _ _ _ _ => false)) 0 false).ctx.hotplug_cbs.map
        (fun hotplug_cb => hotplug_cb.handle) = [1] ∧
    (libusb_hotplug_register_callback true true ctx10 1 3 0
      LIBUSB_HOTPLUG_MATCH_ANY LIBUSB_HOTPLUG_MATCH_ANY LIBUSB_HOTPLUG_MATCH_ANY
      (some (fun _ _ _ _ => false)) 0 true).written = some 1 := by
  have h := register_with_null_handle_out true true ctx10 1 3 0
    LIBUSB_HOTPLUG_MATCH_ANY LIBUSB_HOTPLUG_MATCH_ANY LIBUSB_HOTPLUG_MATCH_ANY
    (some (fun _ _ _ _ => false)) 0
  have hb := h.2 rfl rfl (by decide)
  refine ⟨hb.1, h.1.2.2.2.2.1, hb.2.1.trans (by decide), ?_⟩
  exact h.1.2.2.2.2.2 (h.1.1.symm.trans hb.1)
